import Mathlib

/-
  Verification of the scalar-operator catalog of `aesara/scalar/math.py`:
  type promotion, gradient (L_op / grad) rules, softplus/sigmoid numeric
  semantics, cache versioning, and operator equality.
-/

namespace AesaraScalarMath

/-- Modelled from the spec (§3): the dtype tags used by the scalar layer.
Types partition into floating, complex and discrete (integer/boolean) sets;
the classifications `discrete_types`, `float_types`, `complex_types` live in
`aesara.scalar.basic`, which is not under `src/`. -/
inductive DType where
  | bool | int8 | int16 | int32 | int64
  | uint8 | uint16 | uint32 | uint64
  | float16 | float32 | float64
  | complex64 | complex128
deriving DecidableEq, Repr, Fintype

/-- Membership in `discrete_types` (integers and boolean). -/
def DType.isDiscrete : DType → Bool
  | .bool | .int8 | .int16 | .int32 | .int64
  | .uint8 | .uint16 | .uint32 | .uint64 => true
  | _ => false

/-- Membership in `complex_types`. -/
def DType.isComplex : DType → Bool
  | .complex64 | .complex128 => true
  | _ => false

/-- Membership in `float_types`; also exactly the dtypes whose name contains
the substring "float" (used by `Sigmoid.grad`'s assertion). -/
def DType.isFloat : DType → Bool
  | .float16 | .float32 | .float64 => true
  | _ => false

/-- Kind rank for the promotion join: bool < integer < floating < complex. -/
def DType.kindRank : DType → Nat
  | .bool => 0
  | .int8 | .int16 | .int32 | .int64 | .uint8 | .uint16 | .uint32 | .uint64 => 1
  | .float16 | .float32 | .float64 => 2
  | .complex64 | .complex128 => 3

/-- Width rank for the promotion join, aligned with numpy's float lattice
(float16 < float32 < float64, complex64 pairing with float32). -/
def DType.widthRank : DType → Nat
  | .bool => 0
  | .int8 | .uint8 => 0
  | .int16 | .uint16 => 1
  | .int32 | .uint32 | .int64 | .uint64 => 2
  | .float16 => 0
  | .float32 => 1
  | .float64 => 2
  | .complex64 => 1
  | .complex128 => 2

/-- Rebuild a dtype from a (kind, width) pair of the promotion join. -/
def mkDType (kind w : Nat) : DType :=
  if kind = 0 then .bool
  else if kind = 1 then (if w = 0 then .int8 else if w = 1 then .int16 else .int64)
  else if kind = 2 then (if w = 0 then .float16 else if w = 1 then .float32 else .float64)
  else (if w ≤ 1 then .complex64 else .complex128)

/-- Modelled from the spec (§1, out-of-scope type-promotion tables):
`upcast`, the numpy-style join of two dtypes — the complex kind absorbs,
floating beats discrete, and widths join upward. -/
def upcast (a b : DType) : DType :=
  mkDType (max a.kindRank b.kindRank) (max a.widthRank b.widthRank)

/-- Modelled from the spec (§4.1): a discrete input is replaced by the
process-wide default floating type (`config.floatX`); other inputs pass
through unchanged. -/
def convToFloat (floatX t : DType) : DType :=
  if t.isDiscrete then floatX else t

/-- Accumulating join of converted input dtypes. -/
def upgradeToFloatAcc (floatX : DType) : DType → List DType → DType
  | acc, [] => acc
  | acc, t :: ts => upgradeToFloatAcc floatX (upcast acc (convToFloat floatX t)) ts

/-- Modelled from the spec (§4.1): the `upgrade_to_float` promotion policy —
all-floating inputs join to the widest, any discrete input contributes the
default floating type; complex inputs pass through the join (the spec keeps
a separate no-complex variant for rejecting them). -/
def upgradeToFloat (floatX : DType) : List DType → DType
  | [] => floatX
  | t :: ts => upgradeToFloatAcc floatX (convToFloat floatX t) ts

/-- The three promotion policies instantiated in this file. -/
inductive PromotePolicy where
  | upgradeToFloat
  | upgradeToFloatNoComplex
  | upgradeToFloat64
deriving DecidableEq, Repr, Fintype

/-- Modelled from the spec (§4.1): applying a promotion policy to the input
dtypes; `upgrade_to_float_no_complex` fails on any complex input, and
`upgrade_to_float64` always yields the 64-bit floating type. -/
def applyPolicy (floatX : DType) : PromotePolicy → List DType → Except Unit DType
  | .upgradeToFloat, ts => .ok (upgradeToFloat floatX ts)
  | .upgradeToFloatNoComplex, ts =>
      if ts.any (fun t => t.isComplex) then .error () else .ok (upgradeToFloat floatX ts)
  | .upgradeToFloat64, _ => .ok DType.float64

/-- The concrete operator classes defined in `aesara/scalar/math.py`. -/
inductive OpKind where
  | erf | erfc | erfcx | erfinv | erfcinv
  | gamma | gammaln | psi | triGamma
  | chi2sf | gammainc | gammaincc | gammau | gammal
  | jv | j1 | j0 | iv | i1 | i0
  | sigmoid | softplus
deriving DecidableEq, Repr, Fintype

/-- The promotion policy each operator is instantiated with:
`erfc`, `erfcx`, `erfinv`, `erfcinv` use `upgrade_to_float_no_complex`,
`chi2sf` uses `upgrade_to_float64`, every other catalog operator uses
`upgrade_to_float` (from the instantiation lines of the source). -/
def opPolicy : OpKind → PromotePolicy
  | .erfc | .erfcx | .erfinv | .erfcinv => .upgradeToFloatNoComplex
  | .chi2sf => .upgradeToFloat64
  | _ => .upgradeToFloat

/-- Output dtype of an already-built application (total function used for
dtype inference on expressions; the no-complex rejection happens at node
construction, before any gradient expression exists). -/
def opOutDTypeTotal (floatX : DType) (k : OpKind) (ts : List DType) : DType :=
  match applyPolicy floatX (opPolicy k) ts with
  | .ok d => d
  | .error _ => upgradeToFloat floatX ts

/-- The variables appearing in gradient expressions: the inputs `x`, `v`
and the output gradient `gz`. -/
inductive VarId where
  | x | v | gz
deriving DecidableEq, Repr

/-- The two `np.asarray` constants built by the L_op rules. -/
inductive SpecialConst where
  | twoOverSqrtPi
  | sqrtPiOverTwo
deriving DecidableEq, Repr

/-- Symbolic gradient expressions, the graph fragments built by the
differentiation rules of the catalog. -/
inductive Expr where
  | evar (vid : VarId) (dtype : DType)
  | lit (q : ℚ)
  | npAsarray (c : SpecialConst) (dtype : DType)
  | zerosLike (dtype : DType)
  | gradNotImpl (pos : Nat)
  | neg (a : Expr)
  | add (a b : Expr)
  | sub (a b : Expr)
  | mul (a b : Expr)
  | div (a b : Expr)
  | pow (a b : Expr)
  | expS (a : Expr)
  | call1 (k : OpKind) (a : Expr)
  | call2 (k : OpKind) (a b : Expr)
deriving DecidableEq, Repr

/-- The input variable `x` at a given dtype. -/
def varX (d : DType) : Expr := .evar .x d

/-- The input variable `v` (Bessel order) at a given dtype. -/
def varV (d : DType) : Expr := .evar .v d

/-- The output-gradient variable `gz` at a given dtype. -/
def varGz (d : DType) : Expr := .evar .gz d

/-- Dtype inference on gradient expressions. Python float literals become
float64 constants; binary arithmetic upcasts; an operator application takes
the operator's promoted output dtype. -/
def Expr.dtype (floatX : DType) : Expr → DType
  | .evar _ d => d
  | .lit _ => DType.float64
  | .npAsarray _ d => d
  | .zerosLike d => d
  | .gradNotImpl _ => DType.float64
  | .neg a => a.dtype floatX
  | .add a b => upcast (a.dtype floatX) (b.dtype floatX)
  | .sub a b => upcast (a.dtype floatX) (b.dtype floatX)
  | .mul a b => upcast (a.dtype floatX) (b.dtype floatX)
  | .div a b => upcast (a.dtype floatX) (b.dtype floatX)
  | .pow a b => upcast (a.dtype floatX) (b.dtype floatX)
  | .expS a => upgradeToFloat floatX [a.dtype floatX]
  | .call1 k a => opOutDTypeTotal floatX k [a.dtype floatX]
  | .call2 k a b => opOutDTypeTotal floatX k [a.dtype floatX, b.dtype floatX]

/-- Outcome of calling a differentiation rule. -/
inductive GradOutcome where
  | grads (gs : List Expr)
  | raiseNotImplemented
  | raiseAssertion
deriving DecidableEq, Repr

/-- Whether the outcome is a returned gradient-expression list. -/
def GradOutcome.isGradsB : GradOutcome → Bool
  | .grads _ => true
  | _ => false

/-- Number of returned gradient expressions, when any were returned. -/
def GradOutcome.gradCount : GradOutcome → Option Nat
  | .grads gs => some gs.length
  | _ => none

/-- Whether an expression is a zero expression (`zeros_like`). -/
def Expr.isZeroExpr : Expr → Bool
  | .zerosLike _ => true
  | _ => false

/-- Whether the rule returned a list made only of zero expressions. -/
def GradOutcome.allZeroGrads : GradOutcome → Bool
  | .grads gs => gs.all Expr.isZeroExpr
  | _ => false

/-- Erf.L_op: a complex input raises NotImplementedError; a discrete output
returns `[x.zeros_like(dtype=config.floatX)]` for a discrete input and
`[x.zeros_like()]` otherwise; else the rule builds
`gz * cst * exp(-x * x)` with `cst = np.asarray(2/sqrt(pi),
dtype=upcast(x.dtype, gz.dtype))`. -/
def Erf.L_op (floatX xd gzd outd : DType) : GradOutcome :=
  if xd.isComplex then .raiseNotImplemented
  else if outd.isDiscrete then
    (if xd.isDiscrete then .grads [.zerosLike floatX] else .grads [.zerosLike xd])
  else
    .grads [.mul (.mul (varGz gzd) (.npAsarray .twoOverSqrtPi (upcast xd gzd)))
      (.expS (.mul (.neg (varX xd)) (varX xd)))]

/-- Erfc.L_op: same guards as Erf.L_op, formula `-gz * cst * exp(-x * x)`. -/
def Erfc.L_op (floatX xd gzd outd : DType) : GradOutcome :=
  if xd.isComplex then .raiseNotImplemented
  else if outd.isDiscrete then
    (if xd.isDiscrete then .grads [.zerosLike floatX] else .grads [.zerosLike xd])
  else
    .grads [.mul (.mul (.neg (varGz gzd)) (.npAsarray .twoOverSqrtPi (upcast xd gzd)))
      (.expS (.mul (.neg (varX xd)) (varX xd)))]

/-- Erfcx.L_op: same guards, formula `gz * (-cst + (2.0 * x) * erfcx(x))`. -/
def Erfcx.L_op (floatX xd gzd outd : DType) : GradOutcome :=
  if xd.isComplex then .raiseNotImplemented
  else if outd.isDiscrete then
    (if xd.isDiscrete then .grads [.zerosLike floatX] else .grads [.zerosLike xd])
  else
    .grads [.mul (varGz gzd)
      (.add (.neg (.npAsarray .twoOverSqrtPi (upcast xd gzd)))
        (.mul (.mul (.lit 2) (varX xd)) (.call1 .erfcx (varX xd))))]

/-- Erfinv.L_op: same guards, formula `gz * cst * exp(erfinv(x) ** 2)` with
`cst = np.asarray(sqrt(pi)/2, dtype=upcast(x.dtype, gz.dtype))`. -/
def Erfinv.L_op (floatX xd gzd outd : DType) : GradOutcome :=
  if xd.isComplex then .raiseNotImplemented
  else if outd.isDiscrete then
    (if xd.isDiscrete then .grads [.zerosLike floatX] else .grads [.zerosLike xd])
  else
    .grads [.mul (.mul (varGz gzd) (.npAsarray .sqrtPiOverTwo (upcast xd gzd)))
      (.expS (.pow (.call1 .erfinv (varX xd)) (.lit 2)))]

/-- Erfcinv.L_op: same guards, formula `-gz * cst * exp(erfcinv(x) ** 2)`. -/
def Erfcinv.L_op (floatX xd gzd outd : DType) : GradOutcome :=
  if xd.isComplex then .raiseNotImplemented
  else if outd.isDiscrete then
    (if xd.isDiscrete then .grads [.zerosLike floatX] else .grads [.zerosLike xd])
  else
    .grads [.mul (.mul (.neg (varGz gzd)) (.npAsarray .sqrtPiOverTwo (upcast xd gzd)))
      (.expS (.pow (.call1 .erfcinv (varX xd)) (.lit 2)))]

/-- Gamma.L_op: same guards, formula `gz * gamma(x) * psi(x)`. -/
def Gamma.L_op (floatX xd gzd outd : DType) : GradOutcome :=
  if xd.isComplex then .raiseNotImplemented
  else if outd.isDiscrete then
    (if xd.isDiscrete then .grads [.zerosLike floatX] else .grads [.zerosLike xd])
  else
    .grads [.mul (.mul (varGz gzd) (.call1 .gamma (varX xd))) (.call1 .psi (varX xd))]

/-- GammaLn.L_op: same guards, formula `gz * psi(x)`. -/
def GammaLn.L_op (floatX xd gzd outd : DType) : GradOutcome :=
  if xd.isComplex then .raiseNotImplemented
  else if outd.isDiscrete then
    (if xd.isDiscrete then .grads [.zerosLike floatX] else .grads [.zerosLike xd])
  else
    .grads [.mul (varGz gzd) (.call1 .psi (varX xd))]

/-- Psi.L_op: same guards, formula `gz * tri_gamma(x)`. -/
def Psi.L_op (floatX xd gzd outd : DType) : GradOutcome :=
  if xd.isComplex then .raiseNotImplemented
  else if outd.isDiscrete then
    (if xd.isDiscrete then .grads [.zerosLike floatX] else .grads [.zerosLike xd])
  else
    .grads [.mul (varGz gzd) (.call1 .triGamma (varX xd))]

/-- TriGamma.grad unconditionally raises NotImplementedError. -/
def TriGamma.grad : GradOutcome := .raiseNotImplemented

/-- Jv.grad: no type guard; returns
`[grad_not_implemented(self, 0, v), gz * (jv(v - 1, x) - jv(v + 1, x)) / 2.0]`. -/
def Jv.grad (vd xd gzd : DType) : GradOutcome :=
  .grads [.gradNotImpl 0,
    .div (.mul (varGz gzd)
      (.sub (.call2 .jv (.sub (varV vd) (.lit 1)) (varX xd))
        (.call2 .jv (.add (varV vd) (.lit 1)) (varX xd))))
      (.lit 2)]

/-- J1.grad: no type guard; returns `[gz * (j0(x) - jv(2, x)) / 2.0]`. -/
def J1.grad (xd gzd : DType) : GradOutcome :=
  .grads [.div (.mul (varGz gzd)
    (.sub (.call1 .j0 (varX xd)) (.call2 .jv (.lit 2) (varX xd)))) (.lit 2)]

/-- J0.grad: no type guard; returns `[gz * -1 * j1(x)]`. -/
def J0.grad (xd gzd : DType) : GradOutcome :=
  .grads [.mul (.mul (varGz gzd) (.lit (-1))) (.call1 .j1 (varX xd))]

/-- Iv.grad: no type guard; returns
`[grad_not_implemented(self, 0, v), gz * (iv(v - 1, x) + iv(v + 1, x)) / 2.0]`. -/
def Iv.grad (vd xd gzd : DType) : GradOutcome :=
  .grads [.gradNotImpl 0,
    .div (.mul (varGz gzd)
      (.add (.call2 .iv (.sub (varV vd) (.lit 1)) (varX xd))
        (.call2 .iv (.add (varV vd) (.lit 1)) (varX xd))))
      (.lit 2)]

/-- I1.grad: no type guard; returns `[gz * (i0(x) + iv(2, x)) / 2.0]`. -/
def I1.grad (xd gzd : DType) : GradOutcome :=
  .grads [.div (.mul (varGz gzd)
    (.add (.call1 .i0 (varX xd)) (.call2 .iv (.lit 2) (varX xd)))) (.lit 2)]

/-- I0.grad: no type guard; returns `[gz * i1(x)]`. -/
def I0.grad (xd gzd : DType) : GradOutcome :=
  .grads [.mul (varGz gzd) (.call1 .i1 (varX xd))]

/-- Sigmoid.grad: builds `rval = gz * y * (1.0 - y)` with `y = sigmoid(x)`,
then asserts that the dtype name of `rval` contains "float" (i.e. is a
floating dtype) before returning `[rval]`; no complex-type guard precedes
the construction. -/
def Sigmoid.grad (floatX xd gzd : DType) : GradOutcome :=
  let y := Expr.call1 .sigmoid (varX xd)
  let rval := Expr.mul (Expr.mul (varGz gzd) y) (Expr.sub (Expr.lit 1) y)
  if (rval.dtype floatX).isFloat then .grads [rval] else .raiseAssertion

/-- Softplus.grad: no type guard; returns `[gz * sigmoid(x)]`. -/
def Softplus.grad (xd gzd : DType) : GradOutcome :=
  .grads [.mul (varGz gzd) (.call1 .sigmoid (varX xd))]

/-- Real-valued semantics of `np.log1p`. -/
noncomputable def log1p (y : ℝ) : ℝ := Real.log (1 + y)

/-- Softplus.static_impl, real-valued semantics of the source's branch chain:
`x < -37.0 → exp(x)`, `x < 18.0 → log1p(exp(x))`, `x < 33.3 → x + exp(-x)`,
otherwise `x`. -/
noncomputable def Softplus.static_impl (x : ℝ) : ℝ :=
  if x < -37 then Real.exp x
  else if x < 18 then log1p (Real.exp x)
  else if x < 33.3 then x + Real.exp (-x)
  else x

/-- Semantics of Softplus.c_code's float64 emission: the same chain preceded
by `x < -745.0 → 0.0`. -/
noncomputable def Softplus.c_code_f64 (x : ℝ) : ℝ :=
  if x < -745 then 0
  else if x < -37 then Real.exp x
  else if x < 18 then log1p (Real.exp x)
  else if x < 33.3 then x + Real.exp (-x)
  else x

/-- Semantics of Softplus.c_code's float32 emission: the same chain preceded
by `x < -103.0f → 0.0`. -/
noncomputable def Softplus.c_code_f32 (x : ℝ) : ℝ :=
  if x < -103 then 0
  else if x < -37 then Real.exp x
  else if x < 18 then log1p (Real.exp x)
  else if x < 33.3 then x + Real.exp (-x)
  else x

/-- The softplus piecewise policy written from the spec's words: four regions
with explicit interval bounds — `x < −37`: e^x; `−37 ≤ x < 18`: log1p(e^x);
`18 ≤ x < 33.3`: x + e^(−x); `x ≥ 33.3`: x. -/
noncomputable def softplusSpecPiecewise (x : ℝ) : ℝ :=
  if x < -37 then Real.exp x
  else if -37 ≤ x ∧ x < 18 then Real.log (1 + Real.exp x)
  else if 18 ≤ x ∧ x < 33.3 then x + Real.exp (-x)
  else x

/-- Modelled from the spec: `scipy.special.expit`, the numeric evaluator that
`Sigmoid.impl` delegates to, is the logistic function `1 / (1 + e^(−x))`
(spec catalog row for sigmoid). -/
noncomputable def Sigmoid.impl (x : ℝ) : ℝ := 1 / (1 + Real.exp (-x))

/-- Semantics of Sigmoid.c_code's float64 emission `1.0 / (1.0 + exp(-x))`. -/
noncomputable def Sigmoid.c_code_f64 (x : ℝ) : ℝ := 1 / (1 + Real.exp (-x))

/-- Sigmoid.c_code_cache_version: `v = super().c_code_cache_version();
if v: return (2,) + v; else: return v` (a tuple is truthy iff non-empty). -/
def Sigmoid.c_code_cache_version (v : List Nat) : List Nat :=
  if v = [] then v else 2 :: v

/-- Softplus.c_code_cache_version: identical logic to Sigmoid's. -/
def Softplus.c_code_cache_version (v : List Nat) : List Nat :=
  if v = [] then v else 2 :: v

/-- The regularized upper incomplete gamma function at a positive-integer
shape: `Q(n, x) = e^(−x) · Σ_{i<n} x^i / i!` — the value of the reference
routine `scipy.special.gammaincc(n, x)` for integer `n ≥ 1`. -/
noncomputable def gammainccRef (n : Nat) (x : ℝ) : ℝ :=
  Real.exp (-x) * ∑ i in Finset.range n, x ^ i / (Nat.factorial i)

/-- GammaIncC.st_impl from the source: for operands `(k, x)` it returns
`scipy.special.gammaincc(x, k)` — the scipy routine applied with the
arguments swapped. `Q` abstracts the external scipy routine. -/
def GammaIncC.st_impl (Q : ℝ → ℝ → ℝ) (k x : ℝ) : ℝ := Q x k

/-- Semantics of GammaIncC.c_code, which emits `GammaQ(k, x)` — the
support-code upper-gamma routine applied in declared argument order. -/
def GammaIncC.c_code_sem (Q : ℝ → ℝ → ℝ) (k x : ℝ) : ℝ := Q k x

/-- A concrete candidate for the scipy routine, agreeing with the
integer-shape reference on integer first arguments. -/
noncomputable def gammainccFloor (k x : ℝ) : ℝ := gammainccRef ⌊k⌋₊ x

/-- Modelled from the source comment and numpy's promotion rules: the result
dtype of `np.exp` without an explicit signature — int8/uint8/bool map to
float16 (half precision), int16/uint16 to float32, wider integers to
float64, floating and complex dtypes are preserved. -/
def npExpDtype : DType → DType
  | .bool => .float16
  | .int8 => .float16
  | .uint8 => .float16
  | .int16 => .float32
  | .uint16 => .float32
  | .int32 => .float64
  | .uint32 => .float64
  | .int64 => .float64
  | .uint64 => .float64
  | d => d

/-- The dtype in which Softplus.static_impl carries out its exponential:
`not_int8 = str(getattr(x, "dtype", "")) not in ("int8", "uint8")`; the
default `np.exp` promotion when `not_int8`, else `np.exp(..., signature="f")`
which forces float32. -/
def Softplus.implExpDtype (xd : DType) : DType :=
  if xd ≠ DType.int8 ∧ xd ≠ DType.uint8 then npExpDtype xd else DType.float32

/-- An operator instance: concrete kind, promotion policy and name, as in
the instantiation lines `erf = Erf(upgrade_to_float, name="erf")`, etc.
As a value type it is immutable after construction. -/
structure OpInstance where
  kind : OpKind
  policy : PromotePolicy
  instName : String

/-- Operator equality: `type(self) == type(other)` as defined by
`Chi2SF.__eq__`, `GammaInc.__eq__`, `GammaIncC.__eq__`, `GammaU.__eq__`,
`GammaL.__eq__`; the remaining catalog operators — Modelled from the spec:
stateless operators compare structurally, two instances of the same concrete
kind with the same policy are interchangeable. -/
def opInstEq (a b : OpInstance) : Bool := decide (a.kind = b.kind)

/-- An injective code for each concrete operator class, standing in for
`hash(type(self))`. -/
def opKindCode : OpKind → Nat
  | .erf => 0 | .erfc => 1 | .erfcx => 2 | .erfinv => 3 | .erfcinv => 4
  | .gamma => 5 | .gammaln => 6 | .psi => 7 | .triGamma => 8
  | .chi2sf => 9 | .gammainc => 10 | .gammaincc => 11 | .gammau => 12
  | .gammal => 13
  | .jv => 14 | .j1 => 15 | .j0 => 16 | .iv => 17 | .i1 => 18 | .i0 => 19
  | .sigmoid => 20 | .softplus => 21

/-- Operator hash: `hash(type(self))` as defined by `Chi2SF.__hash__` and
the other incomplete-gamma operator classes. -/
def opInstHash (a : OpInstance) : Nat := opKindCode a.kind

/-- The gradient expression the spec prescribes for jv's second input:
`gz · (J_(v−1)(x) − J_(v+1)(x)) / 2`. -/
def jvGradSpecX (vd xd gzd : DType) : Expr :=
  .div (.mul (varGz gzd)
    (.sub (.call2 .jv (.sub (varV vd) (.lit 1)) (varX xd))
      (.call2 .jv (.add (varV vd) (.lit 1)) (varX xd))))
    (.lit 2)

/- Helper lemmas about the promotion model. -/

/-- The promotion join never produces a discrete dtype from a non-discrete
left operand. -/
theorem upcast_not_discrete : ∀ a b : DType,
    a.isDiscrete = false → (upcast a b).isDiscrete = false := by decide

/-- Conversion to float keeps non-discreteness when `floatX` is a float. -/
theorem convToFloat_not_discrete : ∀ floatX t : DType,
    floatX.isDiscrete = false → (convToFloat floatX t).isDiscrete = false := by decide

/-- The accumulated join stays non-discrete. -/
theorem upgradeToFloatAcc_not_discrete (floatX : DType) :
    ∀ (ts : List DType) (acc : DType), acc.isDiscrete = false →
    (upgradeToFloatAcc floatX acc ts).isDiscrete = false := by
  intro ts
  induction ts with
  | nil => intro acc h; simpa [upgradeToFloatAcc] using h
  | cons t ts ih =>
      intro acc h
      simp only [upgradeToFloatAcc]
      exact ih _ (upcast_not_discrete _ _ h)

/-- `upgrade_to_float` never returns a discrete dtype when the configured
default float is itself non-discrete. -/
theorem upgradeToFloat_not_discrete (floatX : DType) (h : floatX.isDiscrete = false) :
    ∀ ts : List DType, (upgradeToFloat floatX ts).isDiscrete = false := by
  intro ts
  cases ts with
  | nil => simpa [upgradeToFloat] using h
  | cons t ts =>
      simp only [upgradeToFloat]
      exact upgradeToFloatAcc_not_discrete floatX ts _ (convToFloat_not_discrete _ _ h)

/-- `upgrade_to_float` of a single complex dtype is that dtype. -/
theorem upgradeToFloat_single_complex : ∀ floatX xd : DType,
    xd.isComplex = true → upgradeToFloat floatX [xd] = xd := by decide

/-- Joining with a complex dtype never yields a floating dtype. -/
theorem upcast_complex_not_float : ∀ a b : DType,
    b.isComplex = true → (upcast a b).isFloat = false := by decide

/-- Joining with a complex right operand stays complex. -/
theorem upcast_complex_right : ∀ a b : DType,
    b.isComplex = true → (upcast a b).isComplex = true := by decide

/-- Sigmoid.grad on a complex input: the constructed `gz * y * (1.0 - y)`
has a complex dtype, so the rule's assertion on the result dtype fails. -/
theorem sigmoid_grad_complex_asserts (floatX xd gzd : DType) (h : xd.isComplex = true) :
    Sigmoid.grad floatX xd gzd = GradOutcome.raiseAssertion := by
  have hy : opOutDTypeTotal floatX OpKind.sigmoid [xd] = xd := by
    simp [opOutDTypeTotal, applyPolicy, opPolicy,
      upgradeToFloat_single_complex floatX xd h]
  have hcond : ((Expr.mul (Expr.mul (varGz gzd) (Expr.call1 OpKind.sigmoid (varX xd)))
      (Expr.sub (Expr.lit 1) (Expr.call1 OpKind.sigmoid (varX xd)))).dtype floatX).isFloat
        = false := by
    simp only [Expr.dtype, varX, varGz]
    rw [hy]
    exact upcast_complex_not_float _ _ (upcast_complex_right _ _ h)
  simp [Sigmoid.grad, hcond]

/-- C1: the gammaincc numeric evaluator does NOT compute Q(k, x): for
operands (k, x) = (2, 1) it returns the reference value at the swapped pair
(1, 2), which differs from Q(2, 1); it also disagrees with the operator's
own native emission `GammaQ(k, x)` at that input. `Q` is any function
agreeing with the regularized-upper-incomplete-gamma reference at the two
integer-shape points involved. -/
theorem gammaincc_impl_swaps_arguments (Q : ℝ → ℝ → ℝ)
    (h1 : Q 1 2 = gammainccRef 1 2) (h2 : Q 2 1 = gammainccRef 2 1) :
    GammaIncC.st_impl Q 2 1 ≠ Q 2 1
    ∧ GammaIncC.st_impl Q 2 1 ≠ GammaIncC.c_code_sem Q 2 1 := by
  have e1 : gammainccRef 1 2 = Real.exp (-2) := by
    simp [gammainccRef, Finset.sum_range_one]
  have e2 : gammainccRef 2 1 = 2 * Real.exp (-1) := by
    rw [gammainccRef, Finset.sum_range_succ, Finset.sum_range_one]
    norm_num [Nat.factorial]
    ring
  have hlt : Real.exp (-2) < Real.exp (-1) := Real.exp_lt_exp.mpr (by norm_num)
  have hp : 0 < Real.exp (-1) := Real.exp_pos _
  constructor
  · unfold GammaIncC.st_impl
    rw [h1, h2, e1, e2]
    intro heq
    linarith
  · unfold GammaIncC.st_impl GammaIncC.c_code_sem
    rw [h1, h2, e1, e2]
    intro heq
    linarith

/-- Witness for C1: at the concrete integer-shape reference, the evaluator's
value at (2, 1) differs from the reference value at (2, 1). -/
theorem gammaincc_impl_swaps_arguments_witness :
    GammaIncC.st_impl gammainccFloor 2 1 ≠ gammainccFloor 2 1 :=
  (gammaincc_impl_swaps_arguments gammainccFloor
    (by norm_num [gammainccFloor]) (by norm_num [gammainccFloor])).1

/-- C4: the softplus numeric evaluator is exactly the four-region piecewise
function of the spec, and the native emissions reproduce it while returning
exactly 0 below −745 (64-bit) and below −103 (32-bit). -/
theorem softplus_piecewise_exact : ∀ x : ℝ,
    Softplus.static_impl x = softplusSpecPiecewise x
    ∧ Softplus.c_code_f64 x = (if x < -745 then 0 else softplusSpecPiecewise x)
    ∧ Softplus.c_code_f32 x = (if x < -103 then 0 else softplusSpecPiecewise x) := by
  intro x
  have hspec : Softplus.static_impl x = softplusSpecPiecewise x := by
    unfold Softplus.static_impl softplusSpecPiecewise log1p
    by_cases h1 : x < -37
    · simp [h1]
    · by_cases h2 : x < 18
      · have hge : (-37 : ℝ) ≤ x := le_of_not_lt h1
        simp [h1, h2, hge]
      · by_cases h3 : x < 33.3
        · have hge : (18 : ℝ) ≤ x := le_of_not_lt h2
          simp [h1, h2, h3, hge]
        · simp [h1, h2, h3]
  have h64 : Softplus.c_code_f64 x = (if x < -745 then 0 else Softplus.static_impl x) := by
    unfold Softplus.c_code_f64 Softplus.static_impl
    by_cases h : x < -745 <;> simp [h]
  have h32 : Softplus.c_code_f32 x = (if x < -103 then 0 else Softplus.static_impl x) := by
    unfold Softplus.c_code_f32 Softplus.static_impl
    by_cases h : x < -103 <;> simp [h]
  refine ⟨hspec, ?_, ?_⟩
  · rw [h64, hspec]
  · rw [h32, hspec]

/-- C5: the sigmoid evaluator is 1/(1 + e^(−x)), it matches the float64
native emission, and sigmoid(x) + sigmoid(−x) = 1 for every real x. -/
theorem sigmoid_formula_and_symmetry : ∀ x : ℝ,
    Sigmoid.impl x = 1 / (1 + Real.exp (-x))
    ∧ Sigmoid.impl x = Sigmoid.c_code_f64 x
    ∧ Sigmoid.impl x + Sigmoid.impl (-x) = 1 := by
  intro x
  refine ⟨rfl, rfl, ?_⟩
  unfold Sigmoid.impl
  rw [neg_neg, Real.exp_neg]
  have h3 : Real.exp x ≠ 0 := (Real.exp_pos x).ne'
  have h1 : (0 : ℝ) < 1 + (Real.exp x)⁻¹ := by positivity
  have h2 : (0 : ℝ) < 1 + Real.exp x := by positivity
  field_simp
  ring

/-- C6: the sigmoid and softplus cache-version functions prepend (2,) to a
non-empty inherited base version and return an empty base unchanged. -/
theorem cache_version_prepends_two : ∀ v : List Nat,
    (v ≠ [] → Sigmoid.c_code_cache_version v = 2 :: v
      ∧ Softplus.c_code_cache_version v = 2 :: v)
    ∧ (v = [] → Sigmoid.c_code_cache_version v = v
      ∧ Softplus.c_code_cache_version v = v) := by
  intro v
  constructor
  · intro h
    simp [Sigmoid.c_code_cache_version, Softplus.c_code_cache_version, h]
  · intro h
    simp [Sigmoid.c_code_cache_version, Softplus.c_code_cache_version, h]

/-- Witness for C6 at the base version (3,). -/
theorem cache_version_prepends_two_witness :
    Sigmoid.c_code_cache_version [3] = [2, 3]
    ∧ Softplus.c_code_cache_version [3] = [2, 3] :=
  (cache_version_prepends_two [3]).1 (by decide)

/-- C7: the jv differentiation rule returns exactly one gradient per input —
an explicit not-implemented marker at position 0 (the order v) and
`gz · (J_(v−1)(x) − J_(v+1)(x)) / 2` at position 1 (the argument x). -/
theorem jv_grad_structure : ∀ vd xd gzd : DType,
    Jv.grad vd xd gzd = GradOutcome.grads [Expr.gradNotImpl 0, jvGradSpecX vd xd gzd]
    ∧ (Jv.grad vd xd gzd).gradCount = some 2 :=
  fun _ _ _ => ⟨rfl, rfl⟩

/-- C8: two operator instances of the same concrete kind with the same
promotion policy compare equal and hash equal. -/
theorem op_structural_equality : ∀ a b : OpInstance,
    a.kind = b.kind → a.policy = b.policy →
    opInstEq a b = true ∧ opInstHash a = opInstHash b := by
  intro a b hk _
  constructor
  · simp [opInstEq, hk]
  · simp [opInstHash, hk]

/-- Witness for C8: two gammaincc instances with the same policy. -/
theorem op_structural_equality_witness :
    opInstEq ⟨OpKind.gammaincc, PromotePolicy.upgradeToFloat, "gammaincc"⟩
        ⟨OpKind.gammaincc, PromotePolicy.upgradeToFloat, "gammaincc-b"⟩ = true
    ∧ opInstHash ⟨OpKind.gammaincc, PromotePolicy.upgradeToFloat, "gammaincc"⟩ =
        opInstHash ⟨OpKind.gammaincc, PromotePolicy.upgradeToFloat, "gammaincc-b"⟩ :=
  op_structural_equality _ _ rfl rfl

/-- C10: softplus forces its exponential into float32 for int8/uint8
operands (never float16), and uses the host default promotion otherwise. -/
theorem softplus_int8_exp_float32 : ∀ xd : DType,
    ((xd = DType.int8 ∨ xd = DType.uint8) →
      Softplus.implExpDtype xd = DType.float32
      ∧ Softplus.implExpDtype xd ≠ DType.float16)
    ∧ (xd ≠ DType.int8 → xd ≠ DType.uint8 →
      Softplus.implExpDtype xd = npExpDtype xd) := by decide

/-- Witness for C10 at an int8 operand. -/
theorem softplus_int8_exp_float32_witness :
    Softplus.implExpDtype DType.int8 = DType.float32
    ∧ Softplus.implExpDtype DType.int8 ≠ DType.float16 :=
  (softplus_int8_exp_float32 DType.int8).1 (Or.inl rfl)

/-- C2: no catalog operator's promotion policy can produce a discrete output
dtype (so every application trivially meets the discrete-output-zero-gradient
policy), and every rule that receives the output type — the eight guarded
L_op rules — returns only zero expressions whenever the output dtype is
discrete, for any non-complex input dtype. -/
theorem discrete_output_zero_gradients :
    (∀ (floatX : DType) (k : OpKind) (ts : List DType) (d : DType),
      (floatX = DType.float32 ∨ floatX = DType.float64) →
      applyPolicy floatX (opPolicy k) ts = Except.ok d → d.isDiscrete = false)
    ∧ (∀ floatX xd gzd outd : DType,
      outd.isDiscrete = true → xd.isComplex = false →
      (Erf.L_op floatX xd gzd outd).allZeroGrads = true
      ∧ (Erfc.L_op floatX xd gzd outd).allZeroGrads = true
      ∧ (Erfcx.L_op floatX xd gzd outd).allZeroGrads = true
      ∧ (Erfinv.L_op floatX xd gzd outd).allZeroGrads = true
      ∧ (Erfcinv.L_op floatX xd gzd outd).allZeroGrads = true
      ∧ (Gamma.L_op floatX xd gzd outd).allZeroGrads = true
      ∧ (GammaLn.L_op floatX xd gzd outd).allZeroGrads = true
      ∧ (Psi.L_op floatX xd gzd outd).allZeroGrads = true) := by
  constructor
  · intro floatX k ts d hfx happ
    have hfd : floatX.isDiscrete = false := by
      rcases hfx with h | h <;> simp [h, DType.isDiscrete]
    cases hp : opPolicy k
    · rw [hp] at happ
      simp only [applyPolicy, Except.ok.injEq] at happ
      subst happ
      exact upgradeToFloat_not_discrete floatX hfd ts
    · rw [hp] at happ
      simp only [applyPolicy] at happ
      split at happ
      · simp at happ
      · simp only [Except.ok.injEq] at happ
        subst happ
        exact upgradeToFloat_not_discrete floatX hfd ts
    · rw [hp] at happ
      simp only [applyPolicy, Except.ok.injEq] at happ
      subst happ
      rfl
  · intro floatX xd gzd outd hout hxc
    by_cases hd : xd.isDiscrete = true <;>
      refine ⟨?_, ?_, ?_, ?_, ?_, ?_, ?_, ?_⟩ <;>
        simp [Erf.L_op, Erfc.L_op, Erfcx.L_op, Erfinv.L_op, Erfcinv.L_op,
          Gamma.L_op, GammaLn.L_op, Psi.L_op, hout, hxc, hd,
          GradOutcome.allZeroGrads, Expr.isZeroExpr]

/-- Witness for C2: the erf policy yields float32 (not discrete) on an int8
input, and Erf.L_op on a discrete output/int16 input returns only zeros. -/
theorem discrete_output_zero_gradients_witness :
    DType.isDiscrete DType.float32 = false
    ∧ (Erf.L_op DType.float32 DType.int16 DType.float32 DType.int64).allZeroGrads
        = true :=
  ⟨discrete_output_zero_gradients.1 DType.float32 OpKind.erf [DType.int8] DType.float32
      (Or.inl rfl) rfl,
   (discrete_output_zero_gradients.2 DType.float32 DType.int16 DType.float32 DType.int64
      (by decide) (by decide)).1⟩

/-- C3 counterexample: J0.grad called with a complex64 input and output
gradient returns a gradient-expression list — it raises no
unsupported-type error. -/
theorem j0_grad_complex_counterexample :
    (J0.grad DType.complex64 DType.complex64).isGradsB = true := rfl

/-- C3 (amended): the erf, erfc, erfcx, erfinv, erfcinv, gamma, gammaln and
psi differentiation rules raise an explicit not-implemented error for any
complex-typed input; the jv, j1, j0, iv, i1, i0 and softplus rules perform
no complex check and return gradient expressions for complex operands; the
sigmoid rule performs no complex check either and fails only through its
result-dtype assertion. -/
theorem complex_gradient_policy :
    ∀ floatX vd xd gzd outd : DType, xd.isComplex = true →
    Erf.L_op floatX xd gzd outd = GradOutcome.raiseNotImplemented
    ∧ Erfc.L_op floatX xd gzd outd = GradOutcome.raiseNotImplemented
    ∧ Erfcx.L_op floatX xd gzd outd = GradOutcome.raiseNotImplemented
    ∧ Erfinv.L_op floatX xd gzd outd = GradOutcome.raiseNotImplemented
    ∧ Erfcinv.L_op floatX xd gzd outd = GradOutcome.raiseNotImplemented
    ∧ Gamma.L_op floatX xd gzd outd = GradOutcome.raiseNotImplemented
    ∧ GammaLn.L_op floatX xd gzd outd = GradOutcome.raiseNotImplemented
    ∧ Psi.L_op floatX xd gzd outd = GradOutcome.raiseNotImplemented
    ∧ (Jv.grad vd xd gzd).isGradsB = true
    ∧ (J1.grad xd gzd).isGradsB = true
    ∧ (J0.grad xd gzd).isGradsB = true
    ∧ (Iv.grad vd xd gzd).isGradsB = true
    ∧ (I1.grad xd gzd).isGradsB = true
    ∧ (I0.grad xd gzd).isGradsB = true
    ∧ (Softplus.grad xd gzd).isGradsB = true
    ∧ Sigmoid.grad floatX xd gzd = GradOutcome.raiseAssertion := by
  intro floatX vd xd gzd outd h
  refine ⟨?_, ?_, ?_, ?_, ?_, ?_, ?_, ?_, rfl, rfl, rfl, rfl, rfl, rfl, rfl,
    sigmoid_grad_complex_asserts floatX xd gzd h⟩ <;>
    simp [Erf.L_op, Erfc.L_op, Erfcx.L_op, Erfinv.L_op, Erfcinv.L_op,
      Gamma.L_op, GammaLn.L_op, Psi.L_op, h]

/-- Witness for C3 (amended) at a complex64 input. -/
theorem complex_gradient_policy_witness :
    Erf.L_op DType.float32 DType.complex64 DType.float32 DType.float32 =
      GradOutcome.raiseNotImplemented :=
  (complex_gradient_policy DType.float32 DType.float32 DType.complex64 DType.float32
    DType.float32 rfl).1

/-- C9: in the eight guarded L_op rules, when the output dtype is discrete
the returned zero expression carries `config.floatX` for a discrete input
and the input's own dtype for a (non-complex) non-discrete input. -/
theorem discrete_zero_carries_dtype :
    ∀ floatX xd gzd outd : DType,
    outd.isDiscrete = true → xd.isComplex = false →
    Erf.L_op floatX xd gzd outd =
        GradOutcome.grads [Expr.zerosLike (if xd.isDiscrete then floatX else xd)]
    ∧ Erfc.L_op floatX xd gzd outd =
        GradOutcome.grads [Expr.zerosLike (if xd.isDiscrete then floatX else xd)]
    ∧ Erfcx.L_op floatX xd gzd outd =
        GradOutcome.grads [Expr.zerosLike (if xd.isDiscrete then floatX else xd)]
    ∧ Erfinv.L_op floatX xd gzd outd =
        GradOutcome.grads [Expr.zerosLike (if xd.isDiscrete then floatX else xd)]
    ∧ Erfcinv.L_op floatX xd gzd outd =
        GradOutcome.grads [Expr.zerosLike (if xd.isDiscrete then floatX else xd)]
    ∧ Gamma.L_op floatX xd gzd outd =
        GradOutcome.grads [Expr.zerosLike (if xd.isDiscrete then floatX else xd)]
    ∧ GammaLn.L_op floatX xd gzd outd =
        GradOutcome.grads [Expr.zerosLike (if xd.isDiscrete then floatX else xd)]
    ∧ Psi.L_op floatX xd gzd outd =
        GradOutcome.grads [Expr.zerosLike (if xd.isDiscrete then floatX else xd)] := by
  intro floatX xd gzd outd hout hxc
  by_cases hd : xd.isDiscrete = true <;>
    refine ⟨?_, ?_, ?_, ?_, ?_, ?_, ?_, ?_⟩ <;>
      simp [Erf.L_op, Erfc.L_op, Erfcx.L_op, Erfinv.L_op, Erfcinv.L_op,
        Gamma.L_op, GammaLn.L_op, Psi.L_op, hout, hxc, hd]

/-- Witness for C9: discrete int8 input with discrete output yields a
floatX-typed zero expression from Erf.L_op. -/
theorem discrete_zero_carries_dtype_witness :
    Erf.L_op DType.float32 DType.int8 DType.float32 DType.int64 =
      GradOutcome.grads [Expr.zerosLike DType.float32] := by
  simpa using
    (discrete_zero_carries_dtype DType.float32 DType.int8 DType.float32 DType.int64
      rfl rfl).1

end AesaraScalarMath
